import Mathlib

/-!
Verification development for `threat_class_report.py` (ccmarris/threat_class_lookup).

The script queries a threat-intelligence taxonomy service for threat classes and,
optionally, per-class properties, then renders a flat or grouped report.

Modelling conventions:
- A remote response carries a status code and the result of `json.loads` on its
  text: `none` models a body that the JSON parser rejects (in Python, `json.loads`
  raises `json.JSONDecodeError`, which the script does not catch), `some v` models
  a body parsing to the JSON value `v`.
- Python exceptions are modelled by `Except PyErr`; an `Except.error` value means
  the Python function raises and the exception propagates to its caller.
- Logging (`log.info` / `log.debug` / `log.warning`) is an external collaborator
  per the design's scope and is modelled as a no-op side channel: log calls are
  simply dropped. (The script's `log` name binding itself is plumbing outside
  the modelled core.)
- Python dictionaries (`prop_by_class`, which is `collections.defaultdict()` with
  no default factory and hence behaves as a plain dict on missing-key lookup)
  are modelled as insertion-ordered association lists with unique keys.
  Python's TypeError for unhashable (list/dict-valued) keys is not modelled;
  no claim involves such keys.
- JSON numbers are modelled as integers; no claim involves numeric bodies.
- `str()` formatting of non-string JSON values approximates CPython's rendering;
  every property proved is insensitive to the rendering of non-string leaves.
-/

namespace ThreatReport

/-- JSON values as produced by `json.loads`. -/
inductive JsonVal where
  | jNull
  | jBool (b : Bool)
  | jNum (n : Int)
  | jStr (s : String)
  | jArr (elems : List JsonVal)
  | jObj (fields : List (String × JsonVal))

mutual

def jvDecEq : (a b : JsonVal) → Decidable (a = b)
  | .jNull, .jNull => isTrue rfl
  | .jBool a, .jBool b =>
    match decEq a b with
    | isTrue h => isTrue (h ▸ rfl)
    | isFalse h => isFalse (fun hh => h (by injection hh))
  | .jNum a, .jNum b =>
    match decEq a b with
    | isTrue h => isTrue (h ▸ rfl)
    | isFalse h => isFalse (fun hh => h (by injection hh))
  | .jStr a, .jStr b =>
    match decEq a b with
    | isTrue h => isTrue (h ▸ rfl)
    | isFalse h => isFalse (fun hh => h (by injection hh))
  | .jArr a, .jArr b =>
    match jvDecEqList a b with
    | isTrue h => isTrue (h ▸ rfl)
    | isFalse h => isFalse (fun hh => h (by injection hh))
  | .jObj a, .jObj b =>
    match jvDecEqKvs a b with
    | isTrue h => isTrue (h ▸ rfl)
    | isFalse h => isFalse (fun hh => h (by injection hh))
  | .jNull, .jBool _ => isFalse (fun h => JsonVal.noConfusion h)
  | .jNull, .jNum _ => isFalse (fun h => JsonVal.noConfusion h)
  | .jNull, .jStr _ => isFalse (fun h => JsonVal.noConfusion h)
  | .jNull, .jArr _ => isFalse (fun h => JsonVal.noConfusion h)
  | .jNull, .jObj _ => isFalse (fun h => JsonVal.noConfusion h)
  | .jBool _, .jNull => isFalse (fun h => JsonVal.noConfusion h)
  | .jBool _, .jNum _ => isFalse (fun h => JsonVal.noConfusion h)
  | .jBool _, .jStr _ => isFalse (fun h => JsonVal.noConfusion h)
  | .jBool _, .jArr _ => isFalse (fun h => JsonVal.noConfusion h)
  | .jBool _, .jObj _ => isFalse (fun h => JsonVal.noConfusion h)
  | .jNum _, .jNull => isFalse (fun h => JsonVal.noConfusion h)
  | .jNum _, .jBool _ => isFalse (fun h => JsonVal.noConfusion h)
  | .jNum _, .jStr _ => isFalse (fun h => JsonVal.noConfusion h)
  | .jNum _, .jArr _ => isFalse (fun h => JsonVal.noConfusion h)
  | .jNum _, .jObj _ => isFalse (fun h => JsonVal.noConfusion h)
  | .jStr _, .jNull => isFalse (fun h => JsonVal.noConfusion h)
  | .jStr _, .jBool _ => isFalse (fun h => JsonVal.noConfusion h)
  | .jStr _, .jNum _ => isFalse (fun h => JsonVal.noConfusion h)
  | .jStr _, .jArr _ => isFalse (fun h => JsonVal.noConfusion h)
  | .jStr _, .jObj _ => isFalse (fun h => JsonVal.noConfusion h)
  | .jArr _, .jNull => isFalse (fun h => JsonVal.noConfusion h)
  | .jArr _, .jBool _ => isFalse (fun h => JsonVal.noConfusion h)
  | .jArr _, .jNum _ => isFalse (fun h => JsonVal.noConfusion h)
  | .jArr _, .jStr _ => isFalse (fun h => JsonVal.noConfusion h)
  | .jArr _, .jObj _ => isFalse (fun h => JsonVal.noConfusion h)
  | .jObj _, .jNull => isFalse (fun h => JsonVal.noConfusion h)
  | .jObj _, .jBool _ => isFalse (fun h => JsonVal.noConfusion h)
  | .jObj _, .jNum _ => isFalse (fun h => JsonVal.noConfusion h)
  | .jObj _, .jStr _ => isFalse (fun h => JsonVal.noConfusion h)
  | .jObj _, .jArr _ => isFalse (fun h => JsonVal.noConfusion h)

def jvDecEqList : (a b : List JsonVal) → Decidable (a = b)
  | [], [] => isTrue rfl
  | [], _ :: _ => isFalse (fun h => List.noConfusion h)
  | _ :: _, [] => isFalse (fun h => List.noConfusion h)
  | x :: xs, y :: ys =>
    match jvDecEq x y, jvDecEqList xs ys with
    | isTrue h1, isTrue h2 => isTrue (h1 ▸ h2 ▸ rfl)
    | isFalse h1, _ => isFalse (fun hh => h1 (by injection hh))
    | _, isFalse h2 => isFalse (fun hh => h2 (by injection hh))

def jvDecEqKvs : (a b : List (String × JsonVal)) → Decidable (a = b)
  | [], [] => isTrue rfl
  | [], _ :: _ => isFalse (fun h => List.noConfusion h)
  | _ :: _, [] => isFalse (fun h => List.noConfusion h)
  | (k1, v1) :: xs, (k2, v2) :: ys =>
    match decEq k1 k2, jvDecEq v1 v2, jvDecEqKvs xs ys with
    | isTrue h1, isTrue h2, isTrue h3 => isTrue (h1 ▸ h2 ▸ h3 ▸ rfl)
    | isFalse h1, _, _ =>
      isFalse (fun hh => by injection hh with hp ht; exact h1 (congrArg Prod.fst hp))
    | _, isFalse h2, _ =>
      isFalse (fun hh => by injection hh with hp ht; exact h2 (congrArg Prod.snd hp))
    | _, _, isFalse h3 => isFalse (fun hh => h3 (by injection hh))

end

instance : DecidableEq JsonVal := jvDecEq

mutual

/-- Python `str()` of a JSON value, as used by `'{}'.format(...)`.
Container rendering approximates CPython (string leaves unquoted); every
property proved is insensitive to this rendering. -/
def pyStr : JsonVal → String
  | .jNull => "None"
  | .jBool true => "True"
  | .jBool false => "False"
  | .jNum n => toString n
  | .jStr s => s
  | .jArr xs => "[" ++ String.intercalate ", " (pyStrList xs) ++ "]"
  | .jObj kvs => "\x7b" ++ String.intercalate ", " (pyStrKvs kvs) ++ "\x7d"

def pyStrList : List JsonVal → List String
  | [] => []
  | x :: xs => pyStr x :: pyStrList xs

def pyStrKvs : List (String × JsonVal) → List String
  | [] => []
  | (k, v) :: kvs => (k ++ ": " ++ pyStr v) :: pyStrKvs kvs

end

/-- Key lookup in a parsed JSON object, as in `parsed_json['k']` /
`'k' in parsed_json.keys()`. On duplicate keys `json.loads` keeps the last
binding, so the lookup prefers later bindings. -/
def jlookup : List (String × JsonVal) → String → Option JsonVal
  | [], _ => none
  | (k0, v0) :: rest, k =>
    match jlookup rest k with
    | some v => some v
    | none => if k0 = k then some v0 else none

/-- Python exceptions that the modelled code can raise or propagate. -/
inductive PyErr where
  /-- `json.loads` raised on a malformed body. -/
  | jsonDecodeError
  /-- Dictionary subscript on a missing key; carries `str()` of the key. -/
  | keyError (k : String)
  /-- Subscript or iteration applied to a value of the wrong shape. -/
  | typeError
  /-- `.keys()` attribute access on a non-dict parse result. -/
  | attrError
  /-- Transport-level (connectivity/protocol) fault raised inside the
  `bloxone` client, uncaught by this script. -/
  | transportFault
deriving DecidableEq

/-- Remote response: status code plus the `json.loads` parse of its text
(`none` models text the parser rejects). -/
structure Response where
  status_code : Nat
  body : Option JsonVal

/-- Model of the instantiated `bloxone.b1td` client: its configured ok-code
set and the behaviour of its two remote read operations. An `Except.error`
result models a transport-level exception raised inside the client. -/
structure B1TD where
  return_codes_ok : List Nat
  threat_classes_resp : Except PyErr Response
  threat_properties_resp : JsonVal → Except PyErr Response

/-- Python subscript `v['k']`: KeyError when the key is missing from a dict,
TypeError when `v` is not subscriptable by a string key. -/
def getItem : JsonVal → String → Except PyErr JsonVal
  | .jObj fields, k =>
    match jlookup fields k with
    | some v => Except.ok v
    | none => Except.error (PyErr.keyError k)
  | _, _ => Except.error PyErr.typeError

/-- The per-element accumulation loop shared by `get_classes` and
`get_properties`: `for x in elems: out.append(x['id'])`. An exception at any
element propagates, discarding the partial list (the caller never returns). -/
def extract_ids : List JsonVal → Except PyErr (List JsonVal)
  | [] => Except.ok []
  | e :: rest =>
    match getItem e "id" with
    | Except.error err => Except.error err
    | Except.ok i =>
      match extract_ids rest with
      | Except.error err => Except.error err
      | Except.ok is => Except.ok (i :: is)

/-- Shared body of `get_classes` / `get_properties` after the response is
obtained: ok-status check, guarded field lookup, per-element id extraction.
The `field` argument is `threat_class` for classes and `property` for
properties. A non-array field value is modelled as a raised TypeError (in
CPython iterating a non-list JSON value either raises TypeError outright or
raises it at the first element's `['id']`; the vacuous empty-string /
empty-dict corner is not exercised by any claim). -/
def process_response (okCodes : List Nat) (field : String) (response : Response) :
    Except PyErr (List JsonVal) :=
  if response.status_code ∈ okCodes then
    match response.body with
    | none => Except.error PyErr.jsonDecodeError
    | some (.jObj kvs) =>
      match jlookup kvs field with
      | some (.jArr elems) => extract_ids elems
      | some _ => Except.error PyErr.typeError
      | none => Except.ok []
    | some _ => Except.error PyErr.attrError
  else
    Except.ok []

/-- Embedding of `get_classes(b1td)`: one `threat_classes()` call, ok-status
check, parse, extraction of each element's `id` from the `threat_class`
array field; empty list on non-ok status or missing field. -/
def get_classes (b1td : B1TD) : Except PyErr (List JsonVal) :=
  match b1td.threat_classes_resp with
  | Except.error e => Except.error e
  | Except.ok response => process_response b1td.return_codes_ok "threat_class" response

/-- Embedding of `get_properties(b1td, tclass)`: one
`threat_properties(threatclass=tclass)` call, ok-status check, parse,
extraction of each element's `id` from the `property` array field; empty
list on non-ok status or missing field. -/
def get_properties (b1td : B1TD) (tclass : JsonVal) : Except PyErr (List JsonVal) :=
  match b1td.threat_properties_resp tclass with
  | Except.error e => Except.error e
  | Except.ok response => process_response b1td.return_codes_ok "property" response

/-- First-match association-list lookup; models Python dict lookup (keys are
kept unique by `dictSet`). -/
def alookup {α β : Type} [DecidableEq α] : List (α × β) → α → Option β
  | [], _ => none
  | (k0, v0) :: rest, k => if k0 = k then some v0 else alookup rest k

/-- Python dict assignment `m[k] = v`: updates in place when the key exists
(keeping insertion order), otherwise appends at the end. -/
def dictSet {α β : Type} [DecidableEq α] : List (α × β) → α → β → List (α × β)
  | [], k, v => [(k, v)]
  | (k0, v0) :: rest, k, v =>
    if k0 = k then (k0, v) :: rest else (k0, v0) :: dictSet rest k v

/-- Removal of a key from an association list (used to model file removal
under rename). -/
def dictRemove {α β : Type} [DecidableEq α] : List (α × β) → α → List (α × β)
  | [], _ => []
  | (k0, v0) :: rest, k =>
    if k0 = k then dictRemove rest k else (k0, v0) :: dictRemove rest k

/-- Flat-mode lines of `output_report`: the single header, one line per
class, the trailing blank `print()`. -/
def flat_lines (threat_classes : List JsonVal) : List String :=
  "Threat Classes:" :: (threat_classes.map (fun t => "     " ++ pyStr t) ++ [""])

/-- Grouped-mode loop of `output_report`: per class, a blank line, the class
header, the associated-properties caption, then one indented line per
property from `prop_by_class[tclass]`; a missing key raises KeyError after
those three prints (the lines printed before the exception are kept, the
exception is recorded in the second component); one trailing blank line
after a completed loop. -/
def grouped_loop (prop_by_class : List (JsonVal × List JsonVal)) :
    List JsonVal → List String × Option PyErr
  | [] => ([""], none)
  | tclass :: rest =>
    let hdr := ["", "Threat Class: " ++ pyStr tclass, " Associated Threat Properties:"]
    match alookup prop_by_class tclass with
    | none => (hdr, some (PyErr.keyError (pyStr tclass)))
    | some props =>
      let tail := grouped_loop prop_by_class rest
      (hdr ++ props.map (fun prop => "     " ++ pyStr prop) ++ tail.1, tail.2)

/-- Embedding of `output_report(threat_classes, prop_by_class)`: grouped mode
when the mapping is truthy (non-empty), flat mode otherwise. The result is
the list of printed console lines paired with the exception raised mid-print,
if any. -/
def output_report (threat_classes : List JsonVal)
    (prop_by_class : List (JsonVal × List JsonVal)) : List String × Option PyErr :=
  if prop_by_class.isEmpty = false then
    grouped_loop prop_by_class threat_classes
  else
    (flat_lines threat_classes, none)

/-- Embedding of the property-collection loop in `main`:
`for tc in threat_classes: prop_by_class[tc] = get_properties(b1td, tc)`.
An exception inside `get_properties` propagates, aborting the loop. -/
def collect_props (b1td : B1TD) :
    List JsonVal → List (JsonVal × List JsonVal) →
    Except PyErr (List (JsonVal × List JsonVal))
  | [], acc => Except.ok acc
  | tc :: rest, acc =>
    match get_properties b1td tc with
    | Except.error e => Except.error e
    | Except.ok props => collect_props b1td rest (dictSet acc tc props)

/-- File-system state: path-to-content map plus whether `shutil.move` and
`open(..., mode=w)` are permitted (modelling permission-style failures). -/
structure FileSys where
  files : List (String × String)
  canMove : Bool
  canOpen : Bool
deriving DecidableEq

/-- Content of the file at a path, when one exists (`os.path.isfile` is
`isSome` of this). -/
def getFile (fs : FileSys) (p : String) : Option String :=
  alookup fs.files p

/-- Embedding of `os.path.isfile`. -/
def isfile (fs : FileSys) (p : String) : Bool :=
  (getFile fs p).isSome

/-- A writable handle returned by `open`, identified by its path. -/
structure Handle where
  path : String
deriving DecidableEq

/-- Embedding of `shutil.move(src, dst)`: fails (raises) when moving is not
permitted; otherwise relocates the content, overwriting any file at `dst`. -/
def fsMove (fs : FileSys) (src dst : String) : Option FileSys :=
  if fs.canMove then
    match getFile fs src with
    | some c => some { fs with files := dictSet (dictRemove fs.files src) dst c }
    | none => none
  else
    none

/-- Embedding of `open(p, mode=w)`: fails (raises IOError) when opening is
not permitted; otherwise creates/truncates the file at `p` and returns a
handle. -/
def fsOpen (fs : FileSys) (p : String) : Option (FileSys × Handle) :=
  if fs.canOpen then some ({ fs with files := dictSet fs.files p "" }, ⟨p⟩) else none

/-- Embedding of `open_file(filename)`: when a file exists at the path it is
first moved to `filename + ".bak"`; only on a successful move is a new file
opened; any failure yields `none` (Python returns `False`) with the state
rolled back to what the successful steps produced. -/
def open_file (fs : FileSys) (filename : String) : FileSys × Option Handle :=
  if isfile fs filename then
    match fsMove fs filename (filename ++ ".bak") with
    | some fs1 =>
      match fsOpen fs1 filename with
      | some (fs2, h) => (fs2, some h)
      | none => (fs1, none)
    | none => (fs, none)
  else
    match fsOpen fs filename with
    | some (fs1, h) => (fs1, some h)
    | none => (fs, none)

/-- Command-line arguments relevant to the modelled run. -/
structure Args where
  config : String
  properties : Bool
  output : Option String
  debug : Bool

/-- Observable outcome of one run of `main`: final file-system state, the
handle obtained from `open_file` (if any), the console lines printed by
`output_report`, the handles `main` closed, the returned exit code (`none`
when an exception propagated out of `main` instead), and that exception. -/
structure RunResult where
  fs : FileSys
  opened : Option Handle
  console : List String
  closes : List Handle
  exit : Option Nat
  raised : Option PyErr
deriving DecidableEq

/-- Embedding of `main()`: open the output file when requested (a failed open
logs a warning and leaves the run on console only), fetch classes, optionally
collect per-class properties, render the report, and close the output handle
only on the fall-through path; `exitcode` is initialised to 0 and never
reassigned. -/
def main_run (args : Args) (b1td : B1TD) (fs0 : FileSys) : RunResult :=
  let exitcode := 0
  let opening :=
    match args.output with
    | some path => open_file fs0 path
    | none => (fs0, none)
  let fs1 := opening.1
  let outfile := opening.2
  match get_classes b1td with
  | Except.error e =>
    { fs := fs1, opened := outfile, console := [], closes := [],
      exit := none, raised := some e }
  | Except.ok threat_classes =>
    match (if args.properties then collect_props b1td threat_classes [] else Except.ok []) with
    | Except.error e =>
      { fs := fs1, opened := outfile, console := [], closes := [],
        exit := none, raised := some e }
    | Except.ok prop_by_class =>
      match output_report threat_classes prop_by_class with
      | (lines, some e) =>
        { fs := fs1, opened := outfile, console := lines, closes := [],
          exit := none, raised := some e }
      | (lines, none) =>
        { fs := fs1, opened := outfile, console := lines,
          closes := outfile.toList, exit := some exitcode, raised := none }

/-- Lines the grouped renderer prints for one class: blank separator, class
header, caption, then one indented line per associated property. -/
def class_block (prop_by_class : List (JsonVal × List JsonVal)) (tclass : JsonVal) :
    List String :=
  ["", "Threat Class: " ++ pyStr tclass, " Associated Threat Properties:"] ++
    ((alookup prop_by_class tclass).getD []).map (fun prop => "     " ++ pyStr prop)

/-! Concrete fixtures used by counterexamples and witnesses. -/

/-- Client whose taxonomy call succeeds with two classes and whose property
calls succeed with one property each. -/
def b1td_ok : B1TD where
  return_codes_ok := [200]
  threat_classes_resp :=
    Except.ok ⟨200, some (.jObj [("threat_class",
      .jArr [.jObj [("id", .jStr "malware")], .jObj [("id", .jStr "phishing")]])])⟩
  threat_properties_resp := fun _ =>
    Except.ok ⟨200, some (.jObj [("property", .jArr [.jObj [("id", .jStr "trojan")]])])⟩

/-- Client whose remote calls raise a transport-level fault. -/
def b1td_fault : B1TD where
  return_codes_ok := [200]
  threat_classes_resp := Except.error PyErr.transportFault
  threat_properties_resp := fun _ => Except.error PyErr.transportFault

/-- Client whose taxonomy call succeeds but whose property calls all return
a non-ok status (404) with a well-formed body. -/
def b1td_props404 : B1TD where
  return_codes_ok := [200]
  threat_classes_resp :=
    Except.ok ⟨200, some (.jObj [("threat_class", .jArr [.jObj [("id", .jStr "a")]])])⟩
  threat_properties_resp := fun _ => Except.ok ⟨404, some (.jObj [])⟩

/-- Client whose calls return an ok status but a body that `json.loads`
rejects. -/
def b1td_badjson : B1TD where
  return_codes_ok := [200]
  threat_classes_resp := Except.ok ⟨200, none⟩
  threat_properties_resp := fun _ => Except.ok ⟨200, none⟩

/-- Client whose taxonomy array repeats an id, to observe duplicate
preservation. -/
def b1td_dup : B1TD where
  return_codes_ok := [200, 201]
  threat_classes_resp :=
    Except.ok ⟨201, some (.jObj [("threat_class",
      .jArr [.jObj [("id", .jStr "x")], .jObj [("id", .jStr "x")], .jObj [("id", .jStr "y")]])])⟩
  threat_properties_resp := fun _ => Except.ok ⟨404, some (.jObj [])⟩

/-- Empty file system with all operations permitted. -/
def fs_empty : FileSys := ⟨[], true, true⟩

/-- File system holding a prior report whose rename is not permitted. -/
def fs_locked : FileSys := ⟨[("report.csv", "old")], false, true⟩

/-- Arguments requesting an output file and no property retrieval. -/
def args_out : Args := ⟨"config.ini", false, some "report.csv", false⟩

/-- Arguments with console-only output and no property retrieval. -/
def args_none : Args := ⟨"config.ini", false, none, false⟩

/-! Helper lemmas about dictionaries. -/

theorem alookup_dictSet_self {α β : Type} [DecidableEq α] (m : List (α × β)) (k : α) (v : β) :
    alookup (dictSet m k v) k = some v := by
  induction m with
  | nil => simp [dictSet, alookup]
  | cons kv rest ih =>
    obtain ⟨k0, v0⟩ := kv
    by_cases h : k0 = k
    · subst h; simp [dictSet, alookup]
    · simp [dictSet, h, alookup, ih]

theorem alookup_dictSet_ne {α β : Type} [DecidableEq α] (m : List (α × β)) (k : α) (v : β)
    (k2 : α) (hne : k ≠ k2) : alookup (dictSet m k v) k2 = alookup m k2 := by
  induction m with
  | nil => simp [dictSet, alookup, hne]
  | cons kv rest ih =>
    obtain ⟨k0, v0⟩ := kv
    by_cases h : k0 = k
    · subst h; simp [dictSet, alookup, hne]
    · by_cases h2 : k0 = k2
      · subst h2; simp [dictSet, h, alookup]
      · simp [dictSet, h, alookup, h2, ih]

theorem length_dictSet {α β : Type} [DecidableEq α] (m : List (α × β)) (k : α) (v : β) :
    (dictSet m k v).length ≤ m.length + 1 := by
  induction m with
  | nil => simp [dictSet]
  | cons kv rest ih =>
    obtain ⟨k0, v0⟩ := kv
    by_cases h : k0 = k
    · simp [dictSet, h]
    · simp only [dictSet, if_neg h, List.length_cons]
      omega

/-! Helper lemmas about the property-collection loop. -/

theorem collect_props_notmem (b : B1TD) :
    ∀ (cs : List JsonVal) (acc m : List (JsonVal × List JsonVal)) (c : JsonVal),
      collect_props b cs acc = Except.ok m → c ∉ cs → alookup m c = alookup acc c := by
  intro cs
  induction cs with
  | nil =>
    intro acc m c h _
    simp only [collect_props] at h
    injection h with h
    subst h; rfl
  | cons tc rest ih =>
    intro acc m c h hc
    simp only [collect_props] at h
    cases hp : get_properties b tc with
    | error e => rw [hp] at h; simp at h
    | ok props =>
      rw [hp] at h
      have hne : c ≠ tc := fun hh => hc (hh ▸ List.mem_cons_self _ _)
      have hcr : c ∉ rest := fun hh => hc (List.mem_cons_of_mem _ hh)
      rw [ih (dictSet acc tc props) m c h hcr]
      exact alookup_dictSet_ne acc tc props c (fun hh => hne hh.symm)

theorem collect_props_mem (b : B1TD) :
    ∀ (cs : List JsonVal) (acc m : List (JsonVal × List JsonVal)) (c : JsonVal),
      collect_props b cs acc = Except.ok m → c ∈ cs →
      ∃ v, get_properties b c = Except.ok v ∧ alookup m c = some v := by
  intro cs
  induction cs with
  | nil => intro acc m c _ hc; cases hc
  | cons tc rest ih =>
    intro acc m c h hc
    simp only [collect_props] at h
    cases hp : get_properties b tc with
    | error e => rw [hp] at h; simp at h
    | ok props =>
      rw [hp] at h
      by_cases hcr : c ∈ rest
      · exact ih _ m c h hcr
      · have hceq : c = tc := by
          rcases List.mem_cons.mp hc with h1 | h2
          · exact h1
          · exact absurd h2 hcr
        subst hceq
        refine ⟨props, hp, ?_⟩
        rw [collect_props_notmem b rest _ m c h hcr]
        exact alookup_dictSet_self acc c props

theorem collect_props_length (b : B1TD) :
    ∀ (cs : List JsonVal) (acc m : List (JsonVal × List JsonVal)),
      collect_props b cs acc = Except.ok m → m.length ≤ acc.length + cs.length := by
  intro cs
  induction cs with
  | nil =>
    intro acc m h
    simp only [collect_props] at h
    injection h with h
    subst h; simp
  | cons tc rest ih =>
    intro acc m h
    simp only [collect_props] at h
    cases hp : get_properties b tc with
    | error e => rw [hp] at h; simp at h
    | ok props =>
      rw [hp] at h
      have h2 := ih (dictSet acc tc props) m h
      have h3 := length_dictSet acc tc props
      simp only [List.length_cons]
      omega

/-- A property fetch whose response has a non-ok status returns the empty
list (the API-error diagnostic is only logged). -/
theorem get_properties_not_ok (b : B1TD) (c : JsonVal) (resp : Response)
    (h1 : b.threat_properties_resp c = Except.ok resp)
    (h2 : resp.status_code ∉ b.return_codes_ok) :
    get_properties b c = Except.ok [] := by
  simp [get_properties, h1, process_response, h2]

/-- The extraction loop maps each array element to its `id` field, in array
order, whenever every element yields one. -/
theorem extract_ids_forall2 (elems ids : List JsonVal)
    (h : List.Forall₂ (fun e i => getItem e "id" = Except.ok i) elems ids) :
    extract_ids elems = Except.ok ids := by
  induction h with
  | nil => rfl
  | cons h1 _ ih => simp only [extract_ids, h1, ih]

/-! Helper lemmas about the renderer. -/

theorem grouped_loop_blocks (m : List (JsonVal × List JsonVal)) :
    ∀ cs : List JsonVal, (∀ c ∈ cs, (alookup m c).isSome = true) →
      grouped_loop m cs = ((cs.map (class_block m)).flatten ++ [""], none) := by
  intro cs
  induction cs with
  | nil => intro _; simp [grouped_loop]
  | cons t rest ih =>
    intro hcov
    have ht : (alookup m t).isSome = true := hcov t (List.mem_cons_self _ _)
    obtain ⟨props, hp⟩ := Option.isSome_iff_exists.mp ht
    have hrest : ∀ c ∈ rest, (alookup m c).isSome = true :=
      fun c hc => hcov c (List.mem_cons_of_mem _ hc)
    simp only [grouped_loop, hp, ih hrest]
    simp [class_block, hp]

/-- The first line printed by the grouped loop is always the blank separator
(or the trailing blank when there are no classes). -/
theorem grouped_loop_head (m : List (JsonVal × List JsonVal)) (cs : List JsonVal) :
    (grouped_loop m cs).1.head? = some "" := by
  cases cs with
  | nil => rfl
  | cons t rest =>
    cases hp : alookup m t with
    | none => simp [grouped_loop, hp]
    | some props => simp [grouped_loop, hp]

/-- A path differs from its backup path. -/
theorem ne_append_bak (p : String) : p ≠ p ++ ".bak" := by
  intro h
  have hl := congrArg String.length h
  rw [String.length_append] at hl
  have h4 : (".bak" : String).length = 4 := rfl
  omega

/-- Console lines, exit code and propagated exception of a run do not depend
on the output destination or the file-system state, only on the client and
the properties flag. -/
theorem run_output_indep (args args2 : Args) (b : B1TD) (fs fs2 : FileSys)
    (hp : args.properties = args2.properties) :
    (main_run args b fs).console = (main_run args2 b fs2).console ∧
    (main_run args b fs).exit = (main_run args2 b fs2).exit ∧
    (main_run args b fs).raised = (main_run args2 b fs2).raised := by
  simp only [main_run, hp]
  cases get_classes b with
  | error e => simp
  | ok cs =>
    cases hcp : (if args2.properties then collect_props b cs [] else Except.ok []) with
    | error e => simp [hcp]
    | ok m =>
      cases hr : output_report cs m with
      | mk lines err => cases err <;> simp [hcp, hr]

/-! Claim theorems. -/

/-- C1, counterexample: the claim says a class whose property fetch returned
a non-ok status is absent from the mapping. In the code it is present,
mapped to the empty list: with one class `"a"` whose property response has
status 404 (outside the ok-set `[200]`), the collection loop produces a
mapping that contains `"a"` with an empty list. -/
theorem C1_counterexample :
    (404 ∉ b1td_props404.return_codes_ok) ∧
    b1td_props404.threat_properties_resp (JsonVal.jStr "a")
      = Except.ok ⟨404, some (JsonVal.jObj [])⟩ ∧
    collect_props b1td_props404 [JsonVal.jStr "a"] []
      = Except.ok [(JsonVal.jStr "a", [])] ∧
    alookup [(JsonVal.jStr "a", ([] : List JsonVal))] (JsonVal.jStr "a") = some [] :=
  ⟨by decide, rfl, rfl, rfl⟩

/-- C1, amended: when the collection loop over a class sequence of length N
completes, the mapping has at most N keys, and every class of the sequence —
including any class whose property fetch returned a non-ok status — is
present in the mapping, a failed-status class being mapped to the empty
list rather than absent. (A malformed property body raises out of the loop
instead, so no mapping results in that case.) -/
theorem C1_theorem (b : B1TD) (cs : List JsonVal) (m : List (JsonVal × List JsonVal))
    (h : collect_props b cs [] = Except.ok m) :
    m.length ≤ cs.length ∧
    ∀ c ∈ cs, ∃ v, get_properties b c = Except.ok v ∧ alookup m c = some v ∧
      (∀ resp, b.threat_properties_resp c = Except.ok resp →
        resp.status_code ∉ b.return_codes_ok → v = []) := by
  constructor
  · have := collect_props_length b cs [] m h
    simpa using this
  · intro c hc
    obtain ⟨v, hv, hl⟩ := collect_props_mem b cs [] m c h hc
    refine ⟨v, hv, hl, ?_⟩
    intro resp hr hnok
    have hempty := get_properties_not_ok b c resp hr hnok
    exact Except.ok.inj (hv.symm.trans hempty)

/-- C1, witness: the amended theorem applied to the 404-status fixture. -/
theorem C1_theorem_witness :
    [(JsonVal.jStr "a", ([] : List JsonVal))].length ≤ [JsonVal.jStr "a"].length :=
  (C1_theorem b1td_props404 [JsonVal.jStr "a"] [(JsonVal.jStr "a", [])] rfl).1

/-- C2, counterexample: the claim says that on a malformed JSON body both
fetch operations return an empty sequence and do not raise. In the code
`json.loads` is not guarded, so the parse error propagates to the caller:
with an ok status and a body that the parser rejects, both operations
raise. -/
theorem C2_counterexample :
    get_classes b1td_badjson = Except.error PyErr.jsonDecodeError ∧
    get_properties b1td_badjson (JsonVal.jStr "x") = Except.error PyErr.jsonDecodeError :=
  ⟨rfl, rfl⟩

/-- C2, amended: for an ok-status response whose JSON object body lacks the
expected array field (`threat_class` for classes, `property` for properties),
`get_classes` and `get_properties` each return the empty sequence without
raising; for an ok-status response whose body is malformed JSON, each
propagates the parse error to the caller instead. -/
theorem C2_theorem (b : B1TD) (resp : Response)
    (hok : resp.status_code ∈ b.return_codes_ok) :
    (∀ kvs, resp.body = some (JsonVal.jObj kvs) → jlookup kvs "threat_class" = none →
      b.threat_classes_resp = Except.ok resp → get_classes b = Except.ok []) ∧
    (∀ kvs c, resp.body = some (JsonVal.jObj kvs) → jlookup kvs "property" = none →
      b.threat_properties_resp c = Except.ok resp → get_properties b c = Except.ok []) ∧
    (resp.body = none → b.threat_classes_resp = Except.ok resp →
      get_classes b = Except.error PyErr.jsonDecodeError) ∧
    (∀ c, resp.body = none → b.threat_properties_resp c = Except.ok resp →
      get_properties b c = Except.error PyErr.jsonDecodeError) := by
  refine ⟨?_, ?_, ?_, ?_⟩
  · intro kvs hbody hfield hresp
    simp [get_classes, hresp, process_response, hok, hbody, hfield]
  · intro kvs c hbody hfield hresp
    simp [get_properties, hresp, process_response, hok, hbody, hfield]
  · intro hbody hresp
    simp [get_classes, hresp, process_response, hok, hbody]
  · intro c hbody hresp
    simp [get_properties, hresp, process_response, hok, hbody]

/-- C2, witness: the amended theorem applied to an ok-status response whose
object body has no `threat_class` field. -/
theorem C2_theorem_witness :
    get_classes
      ⟨[200], Except.ok ⟨200, some (JsonVal.jObj [("other", JsonVal.jNull)])⟩,
        fun _ => Except.ok ⟨200, none⟩⟩ = Except.ok [] :=
  (C2_theorem
      ⟨[200], Except.ok ⟨200, some (JsonVal.jObj [("other", JsonVal.jNull)])⟩,
        fun _ => Except.ok ⟨200, none⟩⟩
      ⟨200, some (JsonVal.jObj [("other", JsonVal.jNull)])⟩
      (by decide)).1 [("other", JsonVal.jNull)] rfl rfl rfl

/-- C10: when property retrieval runs the collection loop to completion
without a propagating fault, the mapping's key set is exactly the class
sequence: a class has an entry if and only if it was fetched, and in
particular every class whose fetch returned an empty result has an entry. -/
theorem C10_theorem (b : B1TD) (cs : List JsonVal) (m : List (JsonVal × List JsonVal))
    (h : collect_props b cs [] = Except.ok m) (c : JsonVal) :
    (alookup m c).isSome = true ↔ c ∈ cs := by
  constructor
  · intro hs
    by_contra hc
    rw [collect_props_notmem b cs [] m c h hc] at hs
    simp [alookup] at hs
  · intro hc
    obtain ⟨v, _, hl⟩ := collect_props_mem b cs [] m c h hc
    simp [hl]

/-- C10, witness: the key-set theorem applied to the 404-status fixture,
whose only class got an empty result yet has an entry. -/
theorem C10_theorem_witness :
    (alookup [(JsonVal.jStr "a", ([] : List JsonVal))] (JsonVal.jStr "a")).isSome = true ↔
      JsonVal.jStr "a" ∈ [JsonVal.jStr "a"] :=
  C10_theorem b1td_props404 [JsonVal.jStr "a"] [(JsonVal.jStr "a", [])] rfl (JsonVal.jStr "a")

/-- C3, counterexample: the claim says grouped rendering heads every class,
including one absent from the mapping, and never fails on a partially
populated mapping. In the code the mapping is subscripted directly
(`prop_by_class[tclass]` on a default-factory-free defaultdict), so a class
absent from a non-empty mapping raises KeyError after its three header
lines, aborting the rendering. -/
theorem C3_counterexample :
    output_report [JsonVal.jStr "a"] [(JsonVal.jStr "b", [])]
      = (["", "Threat Class: a", " Associated Threat Properties:"],
         some (PyErr.keyError "a")) :=
  rfl

/-- C3, amended: in grouped mode, for every class sequence and non-empty
mapping whose key set covers the class sequence, the renderer succeeds and
emits, in original fetch order, one block per class — header lines plus that
class's property lines; a class absent from the mapping instead makes
rendering raise KeyError (it is not silently headed without properties). -/
theorem C3_theorem (cs : List JsonVal) (m : List (JsonVal × List JsonVal))
    (hne : m.isEmpty = false) (hcov : ∀ c ∈ cs, (alookup m c).isSome = true) :
    output_report cs m = ((cs.map (class_block m)).flatten ++ [""], none) := by
  simp only [output_report, hne]
  exact grouped_loop_blocks m cs hcov

/-- C3, witness: the amended theorem applied to one class with one
property. -/
theorem C3_theorem_witness :
    output_report [JsonVal.jStr "m"] [(JsonVal.jStr "m", [JsonVal.jStr "trojan"])]
      = ((([JsonVal.jStr "m"]).map
            (class_block [(JsonVal.jStr "m", [JsonVal.jStr "trojan"])])).flatten
          ++ [""], none) :=
  C3_theorem [JsonVal.jStr "m"] [(JsonVal.jStr "m", [JsonVal.jStr "trojan"])] rfl (by decide)

/-- C4: for every well-formed taxonomy response — ok status, object body
with a `threat_class` array field whose elements each carry an `id` —
`get_classes` returns exactly the pointwise sequence of `id` values, in
array order, neither introducing nor removing duplicates. -/
theorem C4_theorem (b : B1TD) (resp : Response) (kvs : List (String × JsonVal))
    (elems ids : List JsonVal)
    (hresp : b.threat_classes_resp = Except.ok resp)
    (hok : resp.status_code ∈ b.return_codes_ok)
    (hbody : resp.body = some (JsonVal.jObj kvs))
    (hfield : jlookup kvs "threat_class" = some (JsonVal.jArr elems))
    (hids : List.Forall₂ (fun e i => getItem e "id" = Except.ok i) elems ids) :
    get_classes b = Except.ok ids := by
  simp only [get_classes, hresp]
  simp [process_response, hok, hbody, hfield]
  exact extract_ids_forall2 elems ids hids

/-- C4, witness: the theorem applied to a response repeating the id `x`,
whose duplicate is preserved in order. -/
theorem C4_theorem_witness :
    get_classes b1td_dup
      = Except.ok [JsonVal.jStr "x", JsonVal.jStr "x", JsonVal.jStr "y"] :=
  C4_theorem b1td_dup
    ⟨201, some (JsonVal.jObj [("threat_class", JsonVal.jArr
      [JsonVal.jObj [("id", JsonVal.jStr "x")], JsonVal.jObj [("id", JsonVal.jStr "x")],
       JsonVal.jObj [("id", JsonVal.jStr "y")]])])⟩
    [("threat_class", JsonVal.jArr
      [JsonVal.jObj [("id", JsonVal.jStr "x")], JsonVal.jObj [("id", JsonVal.jStr "x")],
       JsonVal.jObj [("id", JsonVal.jStr "y")]])]
    [JsonVal.jObj [("id", JsonVal.jStr "x")], JsonVal.jObj [("id", JsonVal.jStr "x")],
     JsonVal.jObj [("id", JsonVal.jStr "y")]]
    [JsonVal.jStr "x", JsonVal.jStr "x", JsonVal.jStr "y"]
    rfl (by decide) rfl rfl
    (List.Forall₂.cons rfl (List.Forall₂.cons rfl
      (List.Forall₂.cons rfl List.Forall₂.nil)))

/-- C5: the renderer picks flat mode exactly on an empty property mapping:
then it succeeds, prints the single `Threat Classes:` header first, one
indented line per class at position i+1 in original fetch order, and one
trailing blank — classes plus two lines in total. On a non-empty mapping it
picks grouped mode, observable by the leading blank separator line. -/
theorem C5_theorem (cs : List JsonVal) (m : List (JsonVal × List JsonVal)) :
    (m = [] →
      (output_report cs m).2 = none ∧
      (output_report cs m).1.length = cs.length + 2 ∧
      (output_report cs m).1.head? = some "Threat Classes:" ∧
      ∀ i : Fin cs.length,
        (output_report cs m).1.get? (i.1 + 1) = some ("     " ++ pyStr (cs.get i))) ∧
    (m.isEmpty = false → (output_report cs m).1.head? = some "") := by
  constructor
  · intro hm
    subst hm
    refine ⟨rfl, ?_, rfl, ?_⟩
    · simp [output_report, flat_lines]
    · intro i
      have hred : output_report cs []
          = ("Threat Classes:" :: (cs.map (fun t => "     " ++ pyStr t) ++ [""]), none) := by
        simp [output_report, flat_lines]
      rw [hred]
      rw [List.get?_cons_succ, List.get?_append (by simpa using i.2), List.get?_map,
        List.get?_eq_get i.2]
      rfl
  · intro hm
    simp only [output_report, hm]
    exact grouped_loop_head m cs

/-- C5, witness: flat mode on an empty mapping, grouped separator on a
non-empty one. -/
theorem C5_theorem_witness :
    (output_report [JsonVal.jStr "m"] []).1.head? = some "Threat Classes:" ∧
    (output_report [JsonVal.jStr "m"] [(JsonVal.jStr "m", [])]).1.head? = some "" :=
  ⟨((C5_theorem [JsonVal.jStr "m"] []).1 rfl).2.2.1,
   (C5_theorem [JsonVal.jStr "m"] [(JsonVal.jStr "m", [])]).2 rfl⟩

/-- C6: when a file already exists at the output path, a successful open has
first moved its content to the `.bak` path and only then created the fresh
empty file at the path; when the rename is not permitted, `open_file`
reports failure with the file system unchanged (no new file), and the run
proceeds — its final file system is untouched and its console lines, exit
code and propagated-exception behaviour are exactly those of a run with no
output destination at all. -/
theorem C6_theorem (fs : FileSys) (p : String) (args : Args) (b : B1TD)
    (hexists : isfile fs p = true) :
    (∀ fs2 h cont, open_file fs p = (fs2, some h) → getFile fs p = some cont →
      getFile fs2 (p ++ ".bak") = some cont ∧ getFile fs2 p = some "") ∧
    (fs.canMove = false →
      open_file fs p = (fs, none) ∧
      (args.output = some p →
        (main_run args b fs).fs = fs ∧
        (main_run args b fs).opened = none ∧
        (main_run args b fs).console = (main_run { args with output := none } b fs).console ∧
        (main_run args b fs).exit = (main_run { args with output := none } b fs).exit ∧
        (main_run args b fs).raised = (main_run { args with output := none } b fs).raised)) := by
  have hbak := ne_append_bak p
  constructor
  · intro fs2 h cont hopen hcont
    cases hmv : fs.canMove with
    | false => simp [open_file, hexists, fsMove, hmv] at hopen
    | true =>
      cases hcanop : fs.canOpen with
      | false => simp [open_file, hexists, fsMove, hmv, hcont, fsOpen, hcanop] at hopen
      | true =>
        simp [open_file, hexists, fsMove, hmv, hcont, fsOpen, hcanop] at hopen
        obtain ⟨hfs2, hh⟩ := hopen
        subst hfs2
        constructor
        · simp only [getFile]
          rw [alookup_dictSet_ne _ _ _ _ hbak]
          exact alookup_dictSet_self _ _ _
        · simp only [getFile]
          exact alookup_dictSet_self _ _ _
  · intro hmv
    have hopenf : open_file fs p = (fs, none) := by
      simp [open_file, hexists, fsMove, hmv]
    refine ⟨hopenf, ?_⟩
    intro hout
    have hfo : (main_run args b fs).fs = fs ∧ (main_run args b fs).opened = none := by
      simp only [main_run, hout, hopenf]
      cases get_classes b with
      | error e => simp
      | ok cs =>
        cases hcp : (if args.properties then collect_props b cs [] else Except.ok []) with
        | error e => simp [hcp]
        | ok m =>
          cases hr : output_report cs m with
          | mk lines err => cases err <;> simp [hcp, hr]
    have hindep := run_output_indep args { args with output := none } b fs fs rfl
    exact ⟨hfo.1, hfo.2, hindep.1, hindep.2.1, hindep.2.2⟩

/-- C6, witness: the theorem applied to a file system where the prior
report file cannot be renamed. -/
theorem C6_theorem_witness :
    open_file fs_locked "report.csv" = (fs_locked, none) :=
  ((C6_theorem fs_locked "report.csv" args_out b1td_ok rfl).2 rfl).1

/-- C7, counterexample: the claim says the output handle is closed exactly
once on every path, including when a transport-level fault propagates. In
the code `outfile.close()` sits on the fall-through path only (no
try/finally), so when the class fetch raises a transport fault after the
handle was obtained, `main` performs no close at all. -/
theorem C7_counterexample :
    (main_run args_out b1td_fault fs_empty).opened = some ⟨"report.csv"⟩ ∧
    (main_run args_out b1td_fault fs_empty).raised = some PyErr.transportFault ∧
    (main_run args_out b1td_fault fs_empty).closes = [] :=
  ⟨rfl, rfl, rfl⟩

/-- C7, amended: on normal completion `main` closes the obtained handle
exactly once (and closes nothing when no handle was obtained); but on any
path where an exception propagates out of `main`, the handle is not closed
at all. -/
theorem C7_theorem (args : Args) (b : B1TD) (fs : FileSys) :
    ((main_run args b fs).raised = none →
      (main_run args b fs).closes = (main_run args b fs).opened.toList) ∧
    (∀ e, (main_run args b fs).raised = some e → (main_run args b fs).closes = []) := by
  simp only [main_run]
  cases get_classes b with
  | error e => simp
  | ok cs =>
    cases hcp : (if args.properties then collect_props b cs [] else Except.ok []) with
    | error e => simp [hcp]
    | ok m =>
      cases hr : output_report cs m with
      | mk lines err => cases err <;> simp [hcp, hr]

/-- C7, witness: the amended theorem applied to a successful run with an
output file, whose handle is closed exactly once. -/
theorem C7_theorem_witness :
    (main_run args_out b1td_ok fs_empty).closes
      = (main_run args_out b1td_ok fs_empty).opened.toList :=
  (C7_theorem args_out b1td_ok fs_empty).1 rfl

/-- C8: evaluation at the failing input. With an output destination whose
handle opens successfully and a successful class fetch, the run completes,
the report is rendered to the console — yet the output file still holds the
empty content it was created with: no part of the report is ever written to
the sink. -/
theorem C8_theorem :
    (main_run args_out b1td_ok fs_empty).raised = none ∧
    (main_run args_out b1td_ok fs_empty).opened = some ⟨"report.csv"⟩ ∧
    (main_run args_out b1td_ok fs_empty).console
      = ["Threat Classes:", "     malware", "     phishing", ""] ∧
    getFile (main_run args_out b1td_ok fs_empty).fs "report.csv" = some "" :=
  ⟨rfl, rfl, rfl, rfl⟩

/-- C9: a run that reaches the end of `main` returns exit code 0 — the
returned code is `some 0` exactly when no exception propagated, and no
other exit code is ever produced, even when every remote call failed and
the report is empty. -/
theorem C9_theorem (args : Args) (b : B1TD) (fs : FileSys) :
    ((main_run args b fs).raised = none ↔ (main_run args b fs).exit = some 0) ∧
    (∀ n, (main_run args b fs).exit = some n → n = 0) := by
  simp only [main_run]
  cases get_classes b with
  | error e => simp
  | ok cs =>
    cases hcp : (if args.properties then collect_props b cs [] else Except.ok []) with
    | error e => simp [hcp]
    | ok m =>
      cases hr : output_report cs m with
      | mk lines err => cases err <;> simp [hcp, hr]

/-- C9, witness: a console-only run in which every property call would fail
still exits 0. -/
theorem C9_theorem_witness :
    (main_run args_none b1td_ok fs_empty).exit = some 0 :=
  (C9_theorem args_none b1td_ok fs_empty).1.mp rfl

end ThreatReport
